import Mathlib

/-
Shallow embedding of the persistent record store and access-control core of
the TeachIn application (src/hi.py): the CSV table model, the schema
migration inside initialize_system, the default-admin bootstrap step, the
authenticate check, the next-ID allocation pattern, and the user / course
insertion operations (admin_dashboard "Create User" and save_course).
-/

namespace RockBros

/-- A value in one CSV cell as pandas parses it: a missing value (NaN),
a string, or an integer (a purely numeric column is parsed as int64). -/
inductive CsvValue where
  | null : CsvValue
  | str : String → CsvValue
  | intv : Int → CsvValue
deriving DecidableEq

/-- Python str(value), as applied by astype(str) in authenticate:
strings render as themselves, ints via their decimal rendering,
NaN renders as the string nan. -/
def CsvValue.toStr : CsvValue → String
  | .null => "nan"
  | .str s => s
  | .intv n => toString n

/-- Characters Python str.strip removes (ASCII whitespace model). -/
def isSpaceChar (c : Char) : Bool := c == ' ' || c == '\t' || c == '\n' || c == '\r'

def stripChars (l : List Char) : List Char :=
  ((l.dropWhile isSpaceChar).reverse.dropWhile isSpaceChar).reverse

/-- Python str.strip(): remove leading and trailing whitespace. -/
def pstrip (s : String) : String := ⟨stripChars s.data⟩

/-- Lower-case one character (ASCII model of Python str.lower). -/
def lowerChar (c : Char) : Char :=
  if 65 ≤ c.toNat && c.toNat ≤ 90 then Char.ofNat (c.toNat + 32) else c

/-- Python str.lower(). -/
def plower (s : String) : String := ⟨s.data.map lowerChar⟩

/-- A CSV table on disk: the header line and the data rows, each row a list
of cells positionally matched against the header by pd.read_csv. -/
structure Table where
  header : List String
  rows : List (List CsvValue)
deriving DecidableEq

/-- The required column lists of REQUIRED_STRUCTURE (src/hi.py lines 15-26). -/
def usersColumns : List String :=
  ["user_id", "username", "password", "role", "created_at"]

def coursesColumns : List String :=
  ["course_id", "course_name", "description", "instructor",
   "schedule", "created_at", "enrollment_status", "image_path", "youtube_link"]

/-- The columns of the required list absent from an existing header, in
required-list order: the list comprehension at src/hi.py line 43. -/
def missingCols (required existing : List String) : List String :=
  required.filter (fun c => !(existing.contains c))

/-- Adding one column to a DataFrame with df[col] = None: the column name is
appended at the end of the header and every existing row gets a null cell. -/
def addNullColumn (t : Table) (c : String) : Table :=
  ⟨t.header ++ [c], t.rows.map (fun r => r ++ [CsvValue.null])⟩

/-- The migration step of initialize_system on an existing file
(src/hi.py lines 41-50): add each missing required column with null values.
When no column is missing the loop body does not run and no rewrite occurs. -/
def migrateExisting (required : List String) (t : Table) : Table :=
  (missingCols required t.header).foldl addNullColumn t

/-- ensure_schema behaviour of initialize_system for one table
(src/hi.py lines 36-50): a missing file is created with exactly the required
header and zero rows; an existing file is migrated in place. -/
def ensure_schema (required : List String) : Option Table → Table
  | none => ⟨required, []⟩
  | some t => migrateExisting required t

/-- A parsed row of the Users table. user_id is pandas int64; the password
cell keeps its parsed CsvValue because authenticate applies astype(str) to
it (the username and role columns are used through the .str accessor,
i.e. as strings). -/
structure UserRow where
  user_id : Int
  username : String
  password : CsvValue
  role : String
  created_at : String
deriving DecidableEq

/-- The synthesized default admin record of initialize_system
(src/hi.py lines 56-62): user_id is the literal 1. -/
def defaultAdmin (now : String) : UserRow :=
  ⟨1, "admin", .str "admin123", "admin", now⟩

/-- The default-admin step of initialize_system (src/hi.py lines 53-63):
users.empty or not users[users.role == admin].any().any() — the row filter
is an exact, case-sensitive string comparison of the role column with
the lower-case literal; when the filter is non-empty its role column holds a
truthy string, so any().any() is true exactly when some row matches.
The append (to_csv mode append) only ever adds the one row at the end. -/
def bootstrap_admin (now : String) (users : List UserRow) : List UserRow :=
  if users.isEmpty || !(users.any fun u => u.role == "admin") then
    users ++ [defaultAdmin now]
  else users

/-- The per-row credential test of authenticate (src/hi.py lines 79-83):
username stripped+lowered on both sides, password via astype(str) then
stripped on the stored side and stripped on the input side, role
stripped+lowered on both sides. -/
def credMatches (u : UserRow) (username password role : String) : Bool :=
  (plower (pstrip u.username) == plower (pstrip username)) &&
  (pstrip u.password.toStr == pstrip password) &&
  (plower (pstrip u.role) == plower (pstrip role))

/-- authenticate (src/hi.py lines 72-87) together with its surfaced
diagnostic: the first component is the returned boolean, the second the
st.error message emitted on a load failure. The load result stands for
pd.read_csv(USERS_FILE): ok with the parsed rows, or error with the
exception text. -/
def authenticateRun (load : Except String (List UserRow))
    (username password role : String) : Bool × Option String :=
  match load with
  | .error e => (false, some ("Authentication error: " ++ e))
  | .ok users =>
    if users.isEmpty then (false, none)
    else (users.any fun u => credMatches u username password role, none)

/-- The boolean authenticate returns to its caller. -/
def authenticate (load : Except String (List UserRow))
    (username password role : String) : Bool :=
  (authenticateRun load username password role).1

/-- pandas Series.max over the key column of a non-empty table
(0 is never consulted: both call sites guard with an emptiness test). -/
def pdMax : List Int → Int
  | [] => 0
  | x :: xs => xs.foldl max x

/-- The next-ID allocation pattern shared by save_course (src/hi.py
lines 296-301) and the Create User branch of admin_dashboard (line 366):
1 on an empty table, otherwise max of the existing keys plus 1. -/
def next_id (keys : List Int) : Int :=
  if keys.isEmpty then 1 else pdMax keys + 1

/-- The Create User validation and insertion of admin_dashboard
(src/hi.py lines 355-374): empty-field check, password confirmation,
case-insensitive duplicate-username check (lower-cased, not stripped),
then append of the new row with user_id from the next-ID pattern,
the username stripped and the role lower-cased. -/
def create_user (now : String) (users : List UserRow)
    (new_username new_password confirm_password new_role : String) :
    Except String (List UserRow) :=
  if new_username == "" || new_password == "" || confirm_password == "" then
    .error "Please fill all required fields (*)"
  else if !(new_password == confirm_password) then
    .error "Passwords do not match!"
  else if users.any (fun u => plower u.username == plower new_username) then
    .error "Username already exists!"
  else
    .ok (users ++ [⟨next_id (users.map (fun u => u.user_id)),
                    pstrip new_username, .str new_password,
                    plower new_role, now⟩])

/-- The Users table as stored after the Create User form is handled: on a
validation error nothing is written and the table is unchanged. -/
def create_user_store (now : String) (users : List UserRow)
    (new_username new_password confirm_password new_role : String) : List UserRow :=
  match create_user now users new_username new_password confirm_password new_role with
  | .ok users2 => users2
  | .error _ => users

/-- course_id of one stored Courses row: the cell in position 0, the
position of course_id in the file header, parsed as an integer
(astype(int) at src/hi.py line 298). -/
def courseIdOf (row : List CsvValue) : Int :=
  match row.head? with
  | some (.intv n) => n
  | _ => 0

/-- The image path save_course computes (src/hi.py lines 304-309):
the empty string without an upload, otherwise the upload path keyed by the
new course id and the original file name. -/
def imagePathFor (new_id : Int) : Option String → String
  | none => ""
  | some fname => "uploads/course_images/" ++ toString new_id ++ "_" ++ fname

/-- save_course (src/hi.py lines 291-324): allocate the next course_id from
the course_id column, then append one line with to_csv(mode append,
header False). The appended cells follow the insertion order of the dict
the row is built from — course_id, course_name, description, instructor,
schedule, enrollment_status, youtube_link, image_path, created_at — which
is NOT the column order of the file header written by initialize_system. -/
def save_course (now instructor : String) (rows : List (List CsvValue))
    (name desc schedule status yt_link : String) (image : Option String) :
    List (List CsvValue) :=
  let new_id := next_id (rows.map courseIdOf)
  rows ++ [[CsvValue.intv new_id, .str name, .str desc, .str instructor,
            .str schedule, .str status, .str yt_link,
            .str (imagePathFor new_id image), .str now]]

/-- Reading column c of a stored row through the file header, as
pd.read_csv does: the cell at the header position of c. -/
def getCol (hdr : List String) (row : List CsvValue) (c : String) : CsvValue :=
  row.getD (hdr.indexOf c) CsvValue.null

/-- n successive save_course calls starting from an empty Courses table. -/
def saveCoursesN (now instr name desc sched status yt : String) :
    Nat → List (List CsvValue)
  | 0 => []
  | n + 1 =>
    save_course now instr (saveCoursesN now instr name desc sched status yt n)
      name desc sched status yt none

/-! Helper lemmas -/

theorem foldl_addNullColumn (ms : List String) (t : Table) :
    ((ms.foldl addNullColumn t).header = t.header ++ ms) ∧
    ((ms.foldl addNullColumn t).rows
      = t.rows.map (fun r => r ++ ms.map (fun _ => CsvValue.null))) := by
  induction ms generalizing t with
  | nil => simp
  | cons c ms ih =>
    obtain ⟨h1, h2⟩ := ih (addNullColumn t c)
    refine ⟨?_, ?_⟩
    · rw [List.foldl_cons, h1]
      simp [addNullColumn]
    · rw [List.foldl_cons, h2]
      simp only [addNullColumn, List.map_map, List.map_cons]
      apply List.map_congr_left
      intro r _
      simp

theorem mem_missingCols (R ex : List String) (c : String) (hc : c ∈ R) :
    c ∈ ex ++ missingCols R ex := by
  by_cases h : c ∈ ex
  · exact List.mem_append_left _ h
  · refine List.mem_append_right _ ?_
    simp [missingCols, List.mem_filter, hc, h]

theorem missingCols_eq_nil (R ex : List String) (h : ∀ c ∈ R, c ∈ ex) :
    missingCols R ex = [] := by
  simp only [missingCols, List.filter_eq_nil_iff]
  intro c hc
  simp [h c hc]

theorem missingCols_migrate (R : List String) (t : Table) :
    missingCols R (migrateExisting R t).header = [] := by
  have hh := (foldl_addNullColumn (missingCols R t.header) t).1
  rw [migrateExisting, hh]
  exact missingCols_eq_nil _ _ (fun c hc => mem_missingCols _ _ c hc)

theorem migrate_of_missing_nil (R : List String) (t : Table)
    (h : missingCols R t.header = []) : migrateExisting R t = t := by
  rw [migrateExisting, h, List.foldl_nil]

theorem foldl_max_bounds (xs : List Int) (a : Int) :
    a ≤ xs.foldl max a ∧ ∀ x ∈ xs, x ≤ xs.foldl max a := by
  induction xs generalizing a with
  | nil => simp
  | cons y ys ih =>
    obtain ⟨h1, h2⟩ := ih (max a y)
    refine ⟨le_trans (le_max_left a y) h1, ?_⟩
    intro x hx
    rcases List.mem_cons.mp hx with rfl | hx
    · exact le_trans (le_max_right a x) h1
    · exact h2 x hx

theorem le_pdMax (xs : List Int) (x : Int) (hx : x ∈ xs) : x ≤ pdMax xs := by
  cases xs with
  | nil => cases hx
  | cons y ys =>
    rcases List.mem_cons.mp hx with rfl | h
    · exact (foldl_max_bounds ys x).1
    · exact (foldl_max_bounds ys y).2 x h

theorem lt_next_id (keys : List Int) (k : Int) (hk : k ∈ keys) : k < next_id keys := by
  cases keys with
  | nil => cases hk
  | cons y ys =>
    have hle := le_pdMax (y :: ys) k hk
    have hn : next_id (y :: ys) = pdMax (y :: ys) + 1 := by simp [next_id]
    omega

theorem pdMax_append_single (xs : List Int) (y : Int) (h : xs ≠ []) :
    pdMax (xs ++ [y]) = max (pdMax xs) y := by
  cases xs with
  | nil => exact absurd rfl h
  | cons x xs => simp [pdMax, List.foldl_append]

theorem save_course_keys (now instr : String) (rows : List (List CsvValue))
    (name desc sched status yt : String) (img : Option String) :
    (save_course now instr rows name desc sched status yt img).map courseIdOf
      = rows.map courseIdOf ++ [next_id (rows.map courseIdOf)] := by
  simp [save_course, courseIdOf]

theorem next_id_ne_nil (xs : List Int) (h : xs ≠ []) :
    next_id xs = pdMax xs + 1 := by
  cases xs with
  | nil => exact absurd rfl h
  | cons y ys => simp [next_id]

theorem pdMax_range_map (j : Nat) :
    pdMax ((List.range (j + 1)).map (fun (i : Nat) => (i : Int) + 1)) = (j : Int) + 1 := by
  induction j with
  | zero => decide
  | succ i ih =>
    rw [List.range_succ, List.map_append, List.map_cons, List.map_nil,
      pdMax_append_single _ _ (by simp), ih]
    rw [max_eq_right (by push_cast; omega)]

theorem next_id_range_map (k : Nat) :
    next_id ((List.range k).map (fun (i : Nat) => (i : Int) + 1)) = (k : Int) + 1 := by
  cases k with
  | zero => simp [next_id]
  | succ j =>
    rw [next_id_ne_nil _ (by simp), pdMax_range_map]
    push_cast
    ring

theorem saveCoursesN_keys (now instr n d s st yt : String) (cnt : Nat) :
    (saveCoursesN now instr n d s st yt cnt).map courseIdOf
      = (List.range cnt).map (fun (i : Nat) => (i : Int) + 1) := by
  induction cnt with
  | zero => simp [saveCoursesN]
  | succ k ih =>
    rw [saveCoursesN, save_course_keys, ih, next_id_range_map, List.range_succ,
      List.map_append, List.map_cons, List.map_nil]

/-! Claim theorems -/

/-- C5: for every existing table whose header is missing some required
columns, the migration step of initialize_system keeps the row count, leaves
every pre-existing value unchanged and in the same column order (each
migrated row extends the original row), and appends each missing required
column at the end of the header with a null value in every row. -/
theorem C5_migration_preserves_data (R : List String) (t : Table)
    (_hmiss : missingCols R t.header ≠ []) :
    (migrateExisting R t).rows.length = t.rows.length ∧
    (migrateExisting R t).header = t.header ++ missingCols R t.header ∧
    (migrateExisting R t).rows
      = t.rows.map (fun r => r ++ (missingCols R t.header).map (fun _ => CsvValue.null)) := by
  obtain ⟨h1, h2⟩ := foldl_addNullColumn (missingCols R t.header) t
  refine ⟨?_, h1, h2⟩
  rw [show (migrateExisting R t).rows = ((missingCols R t.header).foldl addNullColumn t).rows from rfl,
    h2, List.length_map]

/-- Witness for C5 at a concrete Users table missing all columns but
username: one row, one stored value, four appended null columns. -/
theorem C5_migration_preserves_data_witness :
    missingCols usersColumns ["username"] ≠ [] ∧
    ((migrateExisting usersColumns ⟨["username"], [[CsvValue.str "alice"]]⟩).rows.length
        = ([[CsvValue.str "alice"]] : List (List CsvValue)).length ∧
     (migrateExisting usersColumns ⟨["username"], [[CsvValue.str "alice"]]⟩).header
        = ["username"] ++ missingCols usersColumns ["username"] ∧
     (migrateExisting usersColumns ⟨["username"], [[CsvValue.str "alice"]]⟩).rows
        = ([[CsvValue.str "alice"]] : List (List CsvValue)).map
            (fun r => r ++ (missingCols usersColumns ["username"]).map (fun _ => CsvValue.null))) :=
  ⟨by decide,
   C5_migration_preserves_data usersColumns ⟨["username"], [[CsvValue.str "alice"]]⟩ (by decide)⟩

/-- C6: the schema migration is idempotent: applying ensure_schema to its
own output changes nothing, and on the second run the set of missing
columns is empty, so no rewrite occurs. -/
theorem C6_migration_idempotent (R : List String) (t : Option Table) :
    ensure_schema R (some (ensure_schema R t)) = ensure_schema R t ∧
    missingCols R (ensure_schema R t).header = [] := by
  have hnil : missingCols R (ensure_schema R t).header = [] := by
    cases t with
    | none =>
      exact missingCols_eq_nil R R (fun c hc => hc)
    | some t => exact missingCols_migrate R t
  exact ⟨migrate_of_missing_nil R _ hnil, hnil⟩

/-- C1: the end-to-end scenario evaluated on the code. From an empty store
the bootstrap leaves exactly the one default admin row, and
authenticate/admin/admin123/Admin succeeds. The first course creation
yields one Courses row with course_id 1 and the second allocates
course_id 2 — but the appended row is written in the insertion-dict column
order under the differently ordered file header, so the enrollment_status
column of the stored row holds the (empty) youtube link while the literal
Open lands in the created_at column: the claimed enrollment_status = Open
fails on the code. -/
theorem C1_scenario_behavior :
    bootstrap_admin "t1" [] = [defaultAdmin "t1"] ∧
    authenticate (Except.ok [defaultAdmin "t1"]) "admin" "admin123" "Admin" = true ∧
    (save_course "t2" "teacher1" [] "Intro" "About" "Mon 10-11" "Open" "" none).length = 1 ∧
    getCol coursesColumns
      ((save_course "t2" "teacher1" [] "Intro" "About" "Mon 10-11" "Open" "" none).getD 0 [])
      "course_id" = CsvValue.intv 1 ∧
    getCol coursesColumns
      ((save_course "t2" "teacher1" [] "Intro" "About" "Mon 10-11" "Open" "" none).getD 0 [])
      "enrollment_status" = CsvValue.str "" ∧
    getCol coursesColumns
      ((save_course "t2" "teacher1" [] "Intro" "About" "Mon 10-11" "Open" "" none).getD 0 [])
      "created_at" = CsvValue.str "Open" ∧
    (save_course "t3" "teacher1"
      (save_course "t2" "teacher1" [] "Intro" "About" "Mon 10-11" "Open" "" none)
      "Intro2" "About2" "Tue 10-11" "Open" "" none).map courseIdOf = [1, 2] := by
  decide

/-- C2 counterexample: a Users table whose single row has role Admin
contains an admin under case-insensitive comparison, yet the bootstrap
step appends a second row, because the code compares the role column
case-sensitively with the lower-case literal. -/
theorem C2_case_sensitivity_counterexample :
    plower (pstrip "Admin") = "admin" ∧
    (bootstrap_admin "t1" [⟨7, "bob", CsvValue.str "x", "Admin", "t0"⟩]).length = 2 := by
  decide

/-- C2 amended: the bootstrap step appends the synthesized default admin if
and only if no existing row has role exactly equal to the lower-case string
admin (case-sensitive comparison); it never removes or alters existing
rows, and on an empty table it leaves exactly the one default admin row,
whose role is admin. -/
theorem C2_admin_bootstrap_characterization (now : String) (users : List UserRow) :
    bootstrap_admin now users
      = (if ∃ u ∈ users, u.role = "admin" then users else users ++ [defaultAdmin now]) ∧
    bootstrap_admin now [] = [defaultAdmin now] ∧
    (defaultAdmin now).role = "admin" := by
  refine ⟨?_, rfl, rfl⟩
  by_cases h : ∃ u ∈ users, u.role = "admin"
  · obtain ⟨u, hu, hr⟩ := h
    have hany : (users.any fun v => v.role == "admin") = true :=
      List.any_eq_true.mpr ⟨u, hu, by simp [hr]⟩
    have hne : users.isEmpty = false := by
      cases users with
      | nil => cases hu
      | cons _ _ => rfl
    rw [if_pos ⟨u, hu, hr⟩]
    simp [bootstrap_admin, hany, hne]
  · have hany : (users.any fun v => v.role == "admin") = false := by
      rw [List.any_eq_false]
      intro v hv
      simp only [beq_iff_eq]
      exact fun hr => h ⟨v, hv, hr⟩
    rw [if_neg h]
    simp [bootstrap_admin, hany]

/-- C3 counterexample: on a Users table whose single row has user_id 1 and
role teacher, the bootstrap insertion appends the default admin with the
hard-coded user_id 1, so after this core insertion the primary keys of the
table are no longer unique (and the new key is not greater than the
maximum key present at insertion time). -/
theorem C3_bootstrap_duplicate_key :
    ¬ ((bootstrap_admin "t1" [⟨1, "eve", CsvValue.str "pw", "teacher", "t0"⟩]).map
        UserRow.user_id).Nodup := by
  decide

/-- C3 amended: the next-ID pattern allocates a key strictly greater than
every key present (1 on an empty table); user creation and course creation
insert exactly one row keyed by that pattern, so they preserve key
uniqueness; the bootstrap insertion, however, always appends the default
admin with the literal user_id 1, which exceeds the existing keys only
when the Users table is empty. -/
theorem C3_key_allocation :
    (∀ keys : List Int, ∀ k ∈ keys, k < next_id keys) ∧
    (∀ (now : String) (users : List UserRow) (un pw cp rl : String) (users2 : List UserRow),
      create_user now users un pw cp rl = Except.ok users2 →
      users2 = users ++ [⟨next_id (users.map (fun u => u.user_id)),
                          pstrip un, CsvValue.str pw, plower rl, now⟩]) ∧
    (∀ (now instr : String) (rows : List (List CsvValue)) (n d sc st yt : String)
        (img : Option String),
      (save_course now instr rows n d sc st yt img).map courseIdOf
        = rows.map courseIdOf ++ [next_id (rows.map courseIdOf)]) ∧
    (∀ (now : String) (users : List UserRow),
      bootstrap_admin now users = users ∨
      bootstrap_admin now users = users ++ [defaultAdmin now]) ∧
    (∀ now : String, (defaultAdmin now).user_id = 1) := by
  refine ⟨fun keys k hk => lt_next_id keys k hk, ?_, save_course_keys, ?_, fun _ => rfl⟩
  · intro now users un pw cp rl users2 h
    unfold create_user at h
    split at h
    · simp at h
    · split at h
      · simp at h
      · split at h
        · simp at h
        · simp only [Except.ok.injEq] at h
          exact h.symm
  · intro now users
    unfold bootstrap_admin
    split
    · exact Or.inr rfl
    · exact Or.inl rfl

/-- Witness for C3 key allocation: user creation on an empty table
succeeds and appends exactly the row keyed by the next-ID pattern. -/
theorem C3_key_allocation_witness :
    [(⟨1, "bob", CsvValue.str "pw", "student", "t"⟩ : UserRow)]
      = [] ++ [⟨next_id (([] : List UserRow).map (fun u => u.user_id)),
                pstrip "bob", CsvValue.str "pw", plower "Student", "t"⟩] :=
  C3_key_allocation.2.1 "t" [] "bob" "pw" "pw" "Student"
    [⟨1, "bob", CsvValue.str "pw", "student", "t"⟩] (by rfl)

/-- C4: authenticate over a loaded Users table returns true if and only if
some stored row matches on all three of: username stripped and lower-cased
on both sides, password (its string rendering) stripped against the
stripped input, and role stripped and lower-cased on both sides; the three
concrete checks of the spec hold against the stored row
admin / admin123 / admin. -/
theorem C4_authenticate_characterization :
    (∀ (users : List UserRow) (u p r : String),
      authenticate (Except.ok users) u p r = true ↔
        ∃ row ∈ users,
          plower (pstrip row.username) = plower (pstrip u) ∧
          pstrip row.password.toStr = pstrip p ∧
          plower (pstrip row.role) = plower (pstrip r)) ∧
    authenticate (Except.ok [⟨1, "admin", CsvValue.str "admin123", "admin", "t0"⟩])
      " Admin " "admin123" "Admin" = true ∧
    authenticate (Except.ok [⟨1, "admin", CsvValue.str "admin123", "admin", "t0"⟩])
      "admin" "admin123" "student" = false ∧
    authenticate (Except.ok [⟨1, "admin", CsvValue.str "admin123", "admin", "t0"⟩])
      "admin" " admin124" "admin" = false := by
  refine ⟨?_, by decide, by decide, by decide⟩
  intro users u p r
  cases users with
  | nil => simp [authenticate, authenticateRun]
  | cons v vs =>
    simp [authenticate, authenticateRun, List.any_eq_true, credMatches,
      Bool.and_eq_true, beq_iff_eq, and_assoc]

/-- C7: next-ID allocation returns 1 on an empty table and the maximum
existing key plus 1 otherwise, and a sequence of n course creations
starting from an empty Courses table allocates exactly the keys
1, 2, ..., n in call order. -/
theorem C7_next_id_sequence :
    next_id [] = 1 ∧
    (∀ (k : Int) (ks : List Int), next_id (k :: ks) = pdMax (k :: ks) + 1) ∧
    (∀ (now instr nm d sc st yt : String) (cnt : Nat),
      (saveCoursesN now instr nm d sc st yt cnt).map courseIdOf
        = (List.range cnt).map (fun (i : Nat) => (i : Int) + 1)) := by
  refine ⟨rfl, ?_, fun now instr nm d sc st yt cnt => saveCoursesN_keys now instr nm d sc st yt cnt⟩
  intro k ks
  exact next_id_ne_nil (k :: ks) (by simp)

/-- C8: creating a user whose username case-insensitively matches the
username of an existing row is rejected with a validation error, and the
stored Users table is unchanged (no partial write). -/
theorem C8_duplicate_username_rejected (now : String) (users : List UserRow)
    (un pw cp rl : String)
    (h : ∃ u ∈ users, plower u.username = plower un) :
    (∃ msg, create_user now users un pw cp rl = Except.error msg) ∧
    create_user_store now users un pw cp rl = users := by
  obtain ⟨u, hu, hlow⟩ := h
  have hres : ∃ msg, create_user now users un pw cp rl = Except.error msg := by
    have hany : (users.any fun v => plower v.username == plower un) = true :=
      List.any_eq_true.mpr ⟨u, hu, by simp [hlow]⟩
    unfold create_user
    by_cases h1 : (un == "" || pw == "" || cp == "") = true
    · rw [if_pos h1]
      exact ⟨_, rfl⟩
    · rw [if_neg h1]
      by_cases h2 : (!(pw == cp)) = true
      · rw [if_pos h2]
        exact ⟨_, rfl⟩
      · rw [if_neg h2, if_pos hany]
        exact ⟨_, rfl⟩
  refine ⟨hres, ?_⟩
  obtain ⟨msg, hmsg⟩ := hres
  unfold create_user_store
  rw [hmsg]

/-- Witness for C8: the stored default admin blocks creating a user named
Admin (same username up to case), and the table stays as it was. -/
theorem C8_duplicate_username_rejected_witness :
    (∃ u ∈ [defaultAdmin "t0"], plower u.username = plower "Admin") ∧
    ((∃ msg, create_user "t1" [defaultAdmin "t0"] "Admin" "pw" "pw" "Student"
        = Except.error msg) ∧
     create_user_store "t1" [defaultAdmin "t0"] "Admin" "pw" "pw" "Student"
        = [defaultAdmin "t0"]) :=
  ⟨by decide,
   C8_duplicate_username_rejected "t1" [defaultAdmin "t0"] "Admin" "pw" "pw" "Student"
     (by decide)⟩

/-- C9: authenticate returns false without raising on an empty Users table
and emits no diagnostic there; a load failure makes it return false (fails
closed) while surfacing the error text as a diagnostic instead of
crashing. -/
theorem C9_fails_closed :
    (∀ u p r : String,
      authenticateRun (Except.ok []) u p r = (false, none) ∧
      authenticate (Except.ok []) u p r = false) ∧
    (∀ e u p r : String,
      authenticateRun (Except.error e) u p r
        = (false, some ("Authentication error: " ++ e)) ∧
      authenticate (Except.error e) u p r = false) := by
  exact ⟨fun _ _ _ => ⟨rfl, rfl⟩, fun _ _ _ _ => ⟨rfl, rfl⟩⟩

/-- C10: the stored password is rendered to a string before comparison, so
a row whose password cell was parsed as the integer n authenticates
whenever the stripped input password equals the decimal rendering of n
(and the username and role match). -/
theorem C10_numeric_password (users : List UserRow) (row : UserRow) (n : Int)
    (uname pw rl : String) (hmem : row ∈ users)
    (hpw : row.password = CsvValue.intv n)
    (hu : plower (pstrip row.username) = plower (pstrip uname))
    (hr : plower (pstrip row.role) = plower (pstrip rl))
    (hp : pstrip pw = pstrip (toString n)) :
    authenticate (Except.ok users) uname pw rl = true := by
  have hne : users.isEmpty = false := by
    cases users with
    | nil => cases hmem
    | cons _ _ => rfl
  have hmatch : credMatches row uname pw rl = true := by
    simp [credMatches, hu, hr, hpw, CsvValue.toStr, hp]
  simp only [authenticate, authenticateRun, hne, Bool.false_eq_true, if_false]
  exact List.any_eq_true.mpr ⟨row, hmem, hmatch⟩

/-- Witness for C10: password cell parsed as the integer 12345; the input
string 12345 authenticates. -/
theorem C10_numeric_password_witness :
    ((⟨2, "alice", CsvValue.intv 12345, "student", "t0"⟩ : UserRow)
        ∈ [(⟨2, "alice", CsvValue.intv 12345, "student", "t0"⟩ : UserRow)]) ∧
    authenticate (Except.ok [⟨2, "alice", CsvValue.intv 12345, "student", "t0"⟩])
      "alice" "12345" "student" = true :=
  ⟨by decide,
   C10_numeric_password [⟨2, "alice", CsvValue.intv 12345, "student", "t0"⟩]
     ⟨2, "alice", CsvValue.intv 12345, "student", "t0"⟩ 12345 "alice" "12345" "student"
     (by decide) rfl (by decide) (by decide) (by decide)⟩

end RockBros
